import Mathlib

/-!
Shallow embedding of the richdad desktop backend
(src/src-tauri/src/lib.rs), a thin adapter over a desktop-shell
framework. The five command handlers are translated from the Rust
source; the framework primitives they call (window minimize, maximize,
unmaximize, maximized query, close, webview build, process exit on last
window) live outside this repository and are modelled from the spec,
each such definition marked by a doc comment starting with
"Modelled from the spec:".
-/

/-- Window inner size in logical pixels. -/
structure Geometry where
  width : Nat
  height : Nat
deriving DecidableEq

/-- Per-window state held by the framework.
Modelled from the spec: the framework tracks a minimized flag, a
maximized flag, visibility, the current geometry and the previous
non-maximized geometry. -/
structure WindowState where
  minimized : Bool
  maximized : Bool
  visible : Bool
  geometry : Geometry
  savedGeometry : Geometry
deriving DecidableEq

/-- Modelled from the spec: the framework minimize call transitions the
window to the minimized state. -/
def winMinimize (w : WindowState) : WindowState :=
  { w with minimized := true }

/-- Modelled from the spec: the framework maximize call sets the
maximized flag, remembering the current non-maximized geometry. -/
def winMaximize (w : WindowState) : WindowState :=
  { w with maximized := true, savedGeometry := w.geometry }

/-- Modelled from the spec: the framework unmaximize call clears the
maximized flag and restores the previous non-maximized geometry. -/
def winUnmaximize (w : WindowState) : WindowState :=
  { w with maximized := false, geometry := w.savedGeometry }

/-- Modelled from the spec: the framework maximized query reads the
maximized flag and mutates nothing. -/
def winIsMaximized (w : WindowState) : Bool :=
  w.maximized

/-- Handler minimize_window from lib.rs: calls window.minimize() and
unwraps. Success-path effect on the originating window state. -/
def minimize_window (w : WindowState) : WindowState :=
  winMinimize w

/-- Handler maximize_window from lib.rs: if window.is_maximized() then
window.unmaximize() else window.maximize(), each unwrapped. -/
def maximize_window (w : WindowState) : WindowState :=
  if winIsMaximized w then winUnmaximize w else winMaximize w

/-- Handler is_maximized from lib.rs: returns window.is_maximized(),
unwrapped. -/
def is_maximized (w : WindowState) : Bool :=
  winIsMaximized w

/-- Command-level view of is_maximized: the boolean returned to the
front-end paired with the window state after the call. The handler only
issues the maximized query, which mutates nothing. -/
def is_maximized_call (w : WindowState) : Bool × WindowState :=
  (is_maximized w, w)

/-- A live webview window: its process-unique label, its creation
descriptor and its state. -/
structure WebviewWindow where
  label : String
  title : String
  url : String
  innerSize : Geometry
  minInnerSize : Geometry
  resizable : Bool
  state : WindowState
deriving DecidableEq

/-- The application handle: process-scoped accessor to the set of live
webview windows, in creation order. -/
structure AppHandle where
  windows : List WebviewWindow
deriving DecidableEq

/-- The labels of the live windows. -/
def labelsOf (app : AppHandle) : List String :=
  app.windows.map WebviewWindow.label

/-- Modelled from the spec: a newly created window starts neither
minimized nor maximized, visible, at its requested inner size. -/
def initialWindowState (size : Geometry) : WindowState :=
  { minimized := false, maximized := false, visible := true,
    geometry := size, savedGeometry := size }

/-- Modelled from the spec: the framework build error; the failure mode
reachable in this model is a collision with a live window label. -/
inductive FrameworkError where
  | labelCollision : String → FrameworkError
deriving DecidableEq

/-- Modelled from the spec: the framework renders its errors as
human-readable strings. -/
def FrameworkError.render : FrameworkError → String
  | .labelCollision l => "a webview window with label " ++ l ++ " already exists"

/-- Modelled from the spec: building a webview window with a given label
and descriptor. The framework rejects a label already borne by a live
window with a label-collision error; otherwise it appends the new window
to the live set. -/
def buildWindow (app : AppHandle) (label title url : String)
    (innerSize minInnerSize : Geometry) (resizable : Bool) :
    Except FrameworkError AppHandle :=
  if label ∈ labelsOf app then
    .error (.labelCollision label)
  else
    .ok (AppHandle.mk (app.windows ++
      [{ label := label, title := title, url := url,
         innerSize := innerSize, minInnerSize := minInnerSize,
         resizable := resizable, state := initialWindowState innerSize }]))

/-- The label formed by create_new_window: "richdad_" followed by the
live webview window count read from the application handle. -/
def newWindowLabel (app : AppHandle) : String :=
  "richdad_" ++ toString app.windows.length

/-- Handler create_new_window from lib.rs: reads the live window count,
forms the label richdad_<count>, asks the framework to build a window
with title RichDad, inner size 1600x1000, minimum inner size 1200x800,
resizable, root URL /; a build error is mapped to its rendered string.
Returns the front-end result paired with the application state after the
call. -/
def create_new_window (app : AppHandle) : Except String Unit × AppHandle :=
  match buildWindow app (newWindowLabel app) "RichDad" "/"
      ⟨1600, 1000⟩ ⟨1200, 800⟩ true with
  | .error e => (.error e.render, app)
  | .ok app2 => (.ok (), app2)

/-- Modelled from the spec: a fresh process starts with a single main
window, labelled main, with the default descriptor. -/
def mainWindow : WebviewWindow :=
  { label := "main", title := "RichDad", url := "/",
    innerSize := ⟨1600, 1000⟩, minInnerSize := ⟨1200, 800⟩,
    resizable := true, state := initialWindowState ⟨1600, 1000⟩ }

/-- Modelled from the spec: the application handle of a fresh process. -/
def freshApp : AppHandle :=
  ⟨[mainWindow]⟩

/-- The application state after n sequential create_new_window
invocations. -/
def createManyState : Nat → AppHandle → AppHandle
  | 0, app => app
  | n + 1, app => (create_new_window (createManyState n app)).2

/-- The first n create_new_window invocations, started from app, all
succeed. -/
def successUpTo (n : Nat) (app : AppHandle) : Prop :=
  ∀ k, k < n → (create_new_window (createManyState k app)).1 = Except.ok ()

/-- Modelled from the spec: the framework close call removes the
originating window from the live set. -/
def closeApp (app : AppHandle) (label : String) : AppHandle :=
  ⟨app.windows.filter (fun w => w.label != label)⟩

/-- The process as a whole: the live windows and whether the process has
exited. -/
structure ProcessState where
  app : AppHandle
  exited : Bool
deriving DecidableEq

/-- Handler close_window from lib.rs (window.close(), unwrapped),
combined with the framework close semantics. Modelled from the spec: the
window leaves the live set and, if it was the last live window, the
process exits per framework default. -/
def close_window (p : ProcessState) (label : String) : ProcessState :=
  let app2 := closeApp p.app label
  { app := app2, exited := p.exited || app2.windows.isEmpty }

/-- Outcome of a handler whose framework calls are unwrapped: a normal
return value, or a process abort. -/
inductive Outcome (α : Type) where
  | ok : α → Outcome α
  | aborted : Outcome α
deriving DecidableEq

/-- Rust unwrap: propagate the value, abort the process on error. -/
def unwrapCall {α : Type} : Except FrameworkError α → Outcome α
  | .ok a => .ok a
  | .error _ => .aborted

/-- Whether a framework call returned an error. -/
def isErr {α : Type} : Except FrameworkError α → Bool
  | .ok _ => false
  | .error _ => true

/-- minimize_window with the outcome of its single framework call made
explicit: the handler unwraps it. -/
def minimize_window_run (r : Except FrameworkError Unit) : Outcome Unit :=
  unwrapCall r

/-- close_window with the outcome of its single framework call made
explicit: the handler unwraps it. -/
def close_window_run (r : Except FrameworkError Unit) : Outcome Unit :=
  unwrapCall r

/-- is_maximized with the outcome of its single framework call made
explicit: the handler unwraps it. -/
def is_maximized_run (r : Except FrameworkError Bool) : Outcome Bool :=
  unwrapCall r

/-- maximize_window with the outcomes of its framework calls made
explicit: the maximized query is unwrapped first; then, depending on the
flag, the unmaximize or maximize call is unwrapped. -/
def maximize_window_run (rq : Except FrameworkError Bool)
    (ract : Bool → Except FrameworkError Unit) : Outcome Unit :=
  match rq with
  | .error _ => .aborted
  | .ok b => unwrapCall (ract b)

/-- The five handlers registered by run in lib.rs. -/
inductive Command where
  | minimizeWindow
  | maximizeWindow
  | closeWindow
  | isMaximizedQuery
  | createNewWindow
deriving DecidableEq

/-- The five command names registered by run in lib.rs, in registration
order. -/
def registeredCommands : List String :=
  ["minimize_window", "maximize_window", "close_window", "is_maximized",
   "create_new_window"]

/-- Result of invoking a command name over IPC: routed to a handler, or
rejected with the framework unknown-command error. -/
inductive InvokeResult where
  | handled : Command → InvokeResult
  | unknownCommand : InvokeResult
deriving DecidableEq

/-- The dispatcher installed by run in lib.rs: routes each registered
name to its handler and rejects any other name with the framework
unknown-command error. -/
def dispatch (name : String) : InvokeResult :=
  if name = "minimize_window" then .handled .minimizeWindow
  else if name = "maximize_window" then .handled .maximizeWindow
  else if name = "close_window" then .handled .closeWindow
  else if name = "is_maximized" then .handled .isMaximizedQuery
  else if name = "create_new_window" then .handled .createNewWindow
  else .unknownCommand

/-- An application state in which the next factory label is already
borne by a live window: one live window labelled richdad_1, so the next
requested label richdad_1 collides and the build fails. -/
def collisionApp : AppHandle :=
  ⟨[{ mainWindow with label := "richdad_1" }]⟩

/-! Helper lemmas about the window factory. -/

/-- On a successful build, create_new_window appends exactly one window,
labelled richdad_<pre-creation count>, and that label was not live. -/
theorem create_ok_labels (app : AppHandle)
    (h : (create_new_window app).1 = Except.ok ()) :
    labelsOf (create_new_window app).2 = labelsOf app ++ [newWindowLabel app]
      ∧ newWindowLabel app ∉ labelsOf app := by
  by_cases hc : newWindowLabel app ∈ labelsOf app
  · exfalso
    simp only [create_new_window, buildWindow] at h
    rw [if_pos hc] at h
    simp at h
  · refine ⟨?_, hc⟩
    simp only [create_new_window, buildWindow]
    rw [if_neg hc]
    simp [labelsOf]

/-- A successful create_new_window grows the live set by one window. -/
theorem create_ok_length (app : AppHandle)
    (h : (create_new_window app).1 = Except.ok ()) :
    (create_new_window app).2.windows.length = app.windows.length + 1 := by
  have h1 := congrArg List.length (create_ok_labels app h).1
  simpa [labelsOf] using h1

/-- n successful creations grow the live set by n windows. -/
theorem createMany_length (app : AppHandle) (n : Nat)
    (h : successUpTo n app) :
    (createManyState n app).windows.length = app.windows.length + n := by
  induction n with
  | zero => simp [createManyState]
  | succ n ih =>
    have hs : (create_new_window (createManyState n app)).1 = Except.ok () :=
      h n (Nat.lt_succ_self n)
    have hrest : successUpTo n app :=
      fun k hk => h k (Nat.lt_trans hk (Nat.lt_succ_self n))
    have := create_ok_length (createManyState n app) hs
    simp [createManyState, this, ih hrest]
    omega

/-- Every framework error renders to a non-empty string. -/
theorem render_ne_empty (e : FrameworkError) : e.render ≠ "" := by
  cases e with
  | labelCollision l =>
    intro hemp
    have hlen := congrArg String.length hemp
    simp only [FrameworkError.render] at hlen
    rw [String.length_append, String.length_append] at hlen
    have h1 : ("a webview window with label ").length = 28 := rfl
    have h2 : (" already exists").length = 15 := rfl
    have h3 : ("" : String).length = 0 := rfl
    rw [h1, h2, h3] at hlen
    omega

/-- When the next factory label collides with a live one, the factory
reports the rendered collision error and leaves the state unchanged. -/
theorem create_collision (app : AppHandle)
    (hc : newWindowLabel app ∈ labelsOf app) :
    create_new_window app
      = (Except.error
          (FrameworkError.labelCollision (newWindowLabel app)).render, app) := by
  simp only [create_new_window, buildWindow]
  rw [if_pos hc]

/-! Claim theorems. -/

/-- C1, counterexample to the claim as stated: on a fresh process (one
main window), the first successful create_new_window invocation produces
the label richdad_1, not richdad_<1-1> = richdad_0. -/
theorem c1_counterexample :
    (create_new_window freshApp).1 = Except.ok ()
    ∧ labelsOf (create_new_window freshApp).2 = ["main", "richdad_1"]
    ∧ "richdad_1" ≠ "richdad_0" := by
  exact ⟨rfl, rfl, by decide⟩

/-- C1 (amended): every create_new_window invocation requests the label
richdad_<N> where N is the live window count read from the application
handle immediately before creation, and on success appends exactly that
window; hence on a fresh process, which starts with one main window, the
Nth successful invocation produces the label richdad_<N>, not
richdad_<N-1>. -/
theorem c1_factory_labeling :
    (∀ app : AppHandle, (create_new_window app).1 = Except.ok () →
      labelsOf (create_new_window app).2
        = labelsOf app ++ ["richdad_" ++ toString app.windows.length])
    ∧ (∀ n : Nat, successUpTo (n + 1) freshApp →
      labelsOf (createManyState (n + 1) freshApp)
        = labelsOf (createManyState n freshApp)
          ++ ["richdad_" ++ toString (n + 1)]) := by
  constructor
  · intro app h
    exact (create_ok_labels app h).1
  · intro n h
    have hs : (create_new_window (createManyState n freshApp)).1 = Except.ok () :=
      h n (Nat.lt_succ_self n)
    have hrest : successUpTo n freshApp :=
      fun k hk => h k (Nat.lt_trans hk (Nat.lt_succ_self n))
    have hlen := createMany_length freshApp n hrest
    have hlab : labelsOf (createManyState (n + 1) freshApp)
        = labelsOf (createManyState n freshApp)
          ++ [newWindowLabel (createManyState n freshApp)] :=
      (create_ok_labels (createManyState n freshApp) hs).1
    rw [hlab]
    have hlabel : newWindowLabel (createManyState n freshApp)
        = "richdad_" ++ toString (n + 1) := by
      rw [newWindowLabel, hlen]
      have h1 : freshApp.windows.length = 1 := rfl
      rw [h1, Nat.add_comm]
    rw [hlabel]

/-- C1 witness: concrete instances of both conjuncts of the amended
factory-labeling theorem, at the fresh application state. -/
theorem c1_factory_labeling_witness :
    labelsOf (create_new_window freshApp).2
        = labelsOf freshApp ++ ["richdad_" ++ toString freshApp.windows.length]
    ∧ labelsOf (createManyState 1 freshApp)
        = labelsOf (createManyState 0 freshApp) ++ ["richdad_" ++ toString 1] :=
  ⟨c1_factory_labeling.1 freshApp rfl,
   c1_factory_labeling.2 0 (fun k hk => by
     have hk0 : k = 0 := Nat.lt_one_iff.mp hk
     subst hk0
     rfl)⟩

/-- C2: maximize_window is an involution on the maximized flag: two
consecutive calls with no intervening state change restore the flag to
its pre-call value. -/
theorem c2_maximize_toggle (w : WindowState) :
    (maximize_window (maximize_window w)).maximized = w.maximized := by
  by_cases h : w.maximized
  · simp [maximize_window, winIsMaximized, winUnmaximize, winMaximize, h]
  · simp [maximize_window, winIsMaximized, winUnmaximize, winMaximize, h]

/-- C3: is_maximized returns the originating window's maximized flag at
the moment of the call; after a maximize_window transition into
maximized it returns true, and after a transition out it returns
false. -/
theorem c3_is_maximized_reflects (w : WindowState) :
    is_maximized w = w.maximized
    ∧ (w.maximized = false → is_maximized (maximize_window w) = true)
    ∧ (w.maximized = true → is_maximized (maximize_window w) = false) := by
  refine ⟨rfl, ?_, ?_⟩ <;> intro h <;>
    simp [is_maximized, maximize_window, winIsMaximized, winMaximize,
      winUnmaximize, h]

/-- C3 witness: a fresh (non-maximized) window, maximized once, reports
maximized. -/
theorem c3_is_maximized_reflects_witness :
    is_maximized (maximize_window (initialWindowState ⟨1600, 1000⟩)) = true :=
  (c3_is_maximized_reflects (initialWindowState ⟨1600, 1000⟩)).2.1 rfl

/-- C4: label uniqueness is preserved by any sequence of successful
create_new_window invocations with no intervening closures, and two
sequential invocations from a one-window start yield the labels main,
richdad_1, richdad_2. -/
theorem c4_label_uniqueness :
    (∀ (app : AppHandle) (n : Nat), successUpTo n app →
      (labelsOf app).Nodup → (labelsOf (createManyState n app)).Nodup)
    ∧ labelsOf (createManyState 2 freshApp)
        = ["main", "richdad_1", "richdad_2"] := by
  constructor
  · intro app n
    induction n with
    | zero =>
      intro _ hnd
      simpa [createManyState] using hnd
    | succ n ih =>
      intro h hnd
      have hs : (create_new_window (createManyState n app)).1 = Except.ok () :=
        h n (Nat.lt_succ_self n)
      have hrest : successUpTo n app :=
        fun k hk => h k (Nat.lt_trans hk (Nat.lt_succ_self n))
      have hlab := create_ok_labels (createManyState n app) hs
      have heq : labelsOf (createManyState (n + 1) app)
          = labelsOf (createManyState n app)
            ++ [newWindowLabel (createManyState n app)] := hlab.1
      rw [heq]
      have hnodup := ih hrest hnd
      rw [List.nodup_append]
      refine ⟨hnodup, List.nodup_singleton _, ?_⟩
      intro x hx hxs
      rw [List.mem_singleton] at hxs
      subst hxs
      exact hlab.2 hx
  · rfl

/-- C4 witness: the uniqueness invariant instantiated at the fresh
process with two successful invocations. -/
theorem c4_label_uniqueness_witness :
    (labelsOf (createManyState 2 freshApp)).Nodup :=
  c4_label_uniqueness.1 freshApp 2
    (by
      intro k hk
      interval_cases k
      · rfl
      · rfl)
    (by decide)

/-- C5: whenever create_new_window reports an error, the reported string
is non-empty (the rendered framework error) and the live-window set is
unchanged; a non-error report is the unit success value. -/
theorem c5_factory_error_surfacing (app : AppHandle) (s : String)
    (h : (create_new_window app).1 = Except.error s) :
    s ≠ "" ∧ (create_new_window app).2 = app
    ∧ (∀ app2 : AppHandle, (create_new_window app2).1 = Except.ok ()
        ∨ ∃ s2, (create_new_window app2).1 = Except.error s2) := by
  have hshape : ∀ app2 : AppHandle, (create_new_window app2).1 = Except.ok ()
      ∨ ∃ s2, (create_new_window app2).1 = Except.error s2 := by
    intro app2
    cases hr : (create_new_window app2).1 with
    | ok u =>
      left
      cases u
      rfl
    | error s2 => exact Or.inr ⟨s2, rfl⟩
  by_cases hc : newWindowLabel app ∈ labelsOf app
  · have heq := create_collision app hc
    rw [heq] at h
    have hs : s = (FrameworkError.labelCollision (newWindowLabel app)).render := by
      injection h with h1
      exact h1.symm
    subst hs
    exact ⟨render_ne_empty _, by rw [heq], hshape⟩
  · exfalso
    simp only [create_new_window, buildWindow] at h
    rw [if_neg hc] at h
    simp at h

/-- C5 witness: a state whose next factory label is already live forces
a build failure with a non-empty error string and an unchanged state. -/
theorem c5_factory_error_surfacing_witness :
    FrameworkError.render (FrameworkError.labelCollision "richdad_1") ≠ ""
    ∧ (create_new_window collisionApp).2 = collisionApp :=
  ⟨(c5_factory_error_surfacing collisionApp
      (FrameworkError.render (FrameworkError.labelCollision "richdad_1")) rfl).1,
   (c5_factory_error_surfacing collisionApp
      (FrameworkError.render (FrameworkError.labelCollision "richdad_1")) rfl).2.1⟩

/-- C6: each of the four window-control handlers aborts the process
exactly when an underlying framework call returns an error; the result
type offers no error alternative to surface to the front-end. -/
theorem c6_fatal_policy :
    (∀ r : Except FrameworkError Unit,
      minimize_window_run r = Outcome.aborted ↔ isErr r = true)
    ∧ (∀ r : Except FrameworkError Unit,
      close_window_run r = Outcome.aborted ↔ isErr r = true)
    ∧ (∀ r : Except FrameworkError Bool,
      is_maximized_run r = Outcome.aborted ↔ isErr r = true)
    ∧ (∀ (rq : Except FrameworkError Bool)
        (ract : Bool → Except FrameworkError Unit),
      maximize_window_run rq ract = Outcome.aborted
        ↔ (isErr rq = true ∨ ∃ b, rq = Except.ok b ∧ isErr (ract b) = true)) := by
  refine ⟨?_, ?_, ?_, ?_⟩
  · intro r
    cases r <;> simp [minimize_window_run, unwrapCall, isErr]
  · intro r
    cases r <;> simp [close_window_run, unwrapCall, isErr]
  · intro r
    cases r <;> simp [is_maximized_run, unwrapCall, isErr]
  · intro rq ract
    cases rq with
    | error e => simp [maximize_window_run, isErr]
    | ok b =>
      cases hb : ract b <;>
        simp [maximize_window_run, unwrapCall, isErr, hb]

/-- C7: the dispatcher registers exactly the five command names; a name
reaches a handler exactly when it is one of the five, and any other name
(for instance nonexistent) is rejected with the unknown-command
error. -/
theorem c7_command_registration :
    registeredCommands.length = 5
    ∧ registeredCommands.Nodup
    ∧ (∀ name : String,
        (∃ c, dispatch name = InvokeResult.handled c) ↔ name ∈ registeredCommands)
    ∧ dispatch "nonexistent" = InvokeResult.unknownCommand := by
  refine ⟨rfl, by decide, ?_, by rfl⟩
  intro name
  simp only [dispatch, registeredCommands]
  split_ifs with h1 h2 h3 h4 h5 <;> simp_all

/-- C8: minimize_window on a visible window leaves it minimized, and a
second call changes nothing (idempotence on the window state). -/
theorem c8_minimize_idempotence (w : WindowState) (h : w.visible = true) :
    (minimize_window w).minimized = true
    ∧ minimize_window (minimize_window w) = minimize_window w :=
  ⟨rfl, rfl⟩

/-- C8 witness: idempotent minimize on a concrete visible window. -/
theorem c8_minimize_idempotence_witness :
    (minimize_window (initialWindowState ⟨1600, 1000⟩)).minimized = true :=
  (c8_minimize_idempotence (initialWindowState ⟨1600, 1000⟩) rfl).1

/-- C9: after close_window the originating window's label is no longer
among the live labels, and when it was the only live window the process
has exited. -/
theorem c9_close_semantics (p : ProcessState) (l : String) :
    l ∉ labelsOf (close_window p l).app
    ∧ (labelsOf p.app = [l] → (close_window p l).exited = true) := by
  constructor
  · simp only [close_window, closeApp, labelsOf, List.mem_map]
    rintro ⟨w, hw, rfl⟩
    have hmem := List.of_mem_filter hw
    simp at hmem
  · intro h
    simp only [close_window, closeApp]
    have hw : ∃ w : WebviewWindow, p.app.windows = [w] ∧ w.label = l := by
      cases hws : p.app.windows with
      | nil =>
        rw [labelsOf, hws] at h
        simp at h
      | cons w t =>
        rw [labelsOf, hws] at h
        simp at h
        exact ⟨w, by rw [h.2], h.1⟩
    obtain ⟨w, hws, hwl⟩ := hw
    rw [hws]
    simp [hwl]

/-- C9 witness: closing the only window of a fresh process removes its
label from the live set and exits the process. -/
theorem c9_close_semantics_witness :
    "main" ∉ labelsOf (close_window ⟨freshApp, false⟩ "main").app
    ∧ (close_window ⟨freshApp, false⟩ "main").exited = true :=
  ⟨(c9_close_semantics ⟨freshApp, false⟩ "main").1,
   (c9_close_semantics ⟨freshApp, false⟩ "main").2 rfl⟩

/-- C10: is_maximized is side-effect free: the call returns the
maximized flag and leaves the full window state (flags, geometry,
visibility) unchanged, so repeated calls return the same boolean. -/
theorem c10_is_maximized_pure (w : WindowState) :
    (is_maximized_call w).2 = w
    ∧ (is_maximized_call ((is_maximized_call w).2)).1 = (is_maximized_call w).1 :=
  ⟨rfl, rfl⟩
